import Mathlib

/-!
# Verification of the az-math-content-manager core (validator and HTML renderer)

This file shallowly embeds `packages/core/src/schema/validator.ts` and
`packages/core/src/renderer/html.ts` and proves the spec's claims about them.

Untrusted validator input is modelled by `JSVal`, a JSON-like sum of the
JavaScript runtime values the validator can observe (including `undefined`).
JavaScript numbers are modelled by `Rat` (every numeric literal and comparison
in the source is exact on rationals; `NaN`/infinities are not produced by any
claim's inputs).  JavaScript truthiness and `typeof` are modelled explicitly.
The platform's `new URL` constructor (not part of the repository) is abstracted
as a parameter `urlOk : String → Bool` — "the constructor did not throw";
every theorem holds for an arbitrary parser.

Code that can throw (the renderer's `escapeHtml` applied to a possibly
`undefined` argument) is embedded with `Except String`, the `.error` case
standing for a raised `TypeError`.
-/

/-- A JavaScript runtime value as seen by the validator. -/
inductive JSVal where
  | undefined
  | null
  | bool (b : Bool)
  | num (n : Rat)
  | str (s : String)
  | arr (xs : List JSVal)
  | obj (fields : List (String × JSVal))

/-- JavaScript truthiness (`!v` in the source is `!(truthy v)`). -/
def JSVal.truthy : JSVal → Bool
  | .undefined => false
  | .null => false
  | .bool b => b
  | .num n => n != 0
  | .str s => s.length != 0
  | .arr _ => true
  | .obj _ => true

/-- JavaScript `typeof`. -/
def JSVal.typeofStr : JSVal → String
  | .undefined => "undefined"
  | .null => "object"
  | .bool _ => "boolean"
  | .num _ => "number"
  | .str _ => "string"
  | .arr _ => "object"
  | .obj _ => "object"

/-- Association-list field lookup. -/
def JSVal.lookupField : List (String × JSVal) → String → JSVal
  | [], _ => .undefined
  | (k, v) :: rest, key => if k == key then v else lookupField rest key

/-- Property access `v.key`: `undefined` when absent or when the receiver is
not an object (the validator only dereferences values it has already
truthiness-checked, so the primitive case is never reached with a throw). -/
def JSVal.getField : JSVal → String → JSVal
  | .obj fields, key => JSVal.lookupField fields key
  | _, _ => .undefined

/-- Strict equality `v === "s"` against a string literal. -/
def JSVal.isStrEq : JSVal → String → Bool
  | .str t, s => t == s
  | _, _ => false

/-- `typeof v === 'string'`. -/
def JSVal.isStrVal : JSVal → Bool
  | .str _ => true
  | _ => false

/-- `typeof v === 'number'`. -/
def JSVal.isNumVal : JSVal → Bool
  | .num _ => true
  | _ => false

/-- `typeof v === 'boolean'`. -/
def JSVal.isBoolVal : JSVal → Bool
  | .bool _ => true
  | _ => false

/-- `Array.isArray(v)`. -/
def JSVal.isArrVal : JSVal → Bool
  | .arr _ => true
  | _ => false

/-- `v === undefined`. -/
def JSVal.isUndefined : JSVal → Bool
  | .undefined => true
  | _ => false

/-- The numeric value of a `num`; only consulted under an `isNumVal` guard,
mirroring the source's `typeof x !== 'number'` short-circuits. -/
def JSVal.asNum : JSVal → Rat
  | .num n => n
  | _ => 0

/-- The string value of a `str`; only consulted under an `isStrVal` guard. -/
def JSVal.asStr : JSVal → String
  | .str s => s
  | _ => ""

/-- The element list of an `arr`; only consulted under an `isArrVal` guard. -/
def JSVal.asArr : JSVal → List JSVal
  | .arr xs => xs
  | _ => []

/-- JavaScript `String.prototype.startsWith`, modelled on code points
(the library `String.startsWith` goes through byte positions and does not
reduce in the kernel). -/
def jsStartsWith (s pre : String) : Bool :=
  pre.data.isPrefixOf s.data

/-- `ValidationError` from `schema/types.ts`. -/
structure ValidationError where
  path : String
  message : String
  code : String
deriving DecidableEq

/-- `ValidationResult` from `schema/types.ts`. -/
structure ValidationResult where
  valid : Bool
  errors : List ValidationError
deriving DecidableEq

/-- The mutable instance state of a `ContentValidator`: its private
`errors` accumulator. -/
structure ValidatorState where
  errors : List ValidationError
deriving DecidableEq

namespace ContentValidator

open JSVal

/-- `isValidBlockType` (validator.ts): membership in the six block-type names. -/
def isValidBlockType (t : JSVal) : Bool :=
  t.isStrEq "paragraph" || t.isStrEq "header" || t.isStrEq "list" ||
  t.isStrEq "quote" || t.isStrEq "math" || t.isStrEq "image"

/-- `isValidContentType` (validator.ts). -/
def isValidContentType (t : JSVal) : Bool :=
  t.isStrEq "problem" || t.isStrEq "lesson"

/-- `isValidCategory` (validator.ts): the closed six-value category enum. -/
def isValidCategory (c : JSVal) : Bool :=
  c.isStrEq "Algebra" || c.isStrEq "Geometry" || c.isStrEq "Number Theory" ||
  c.isStrEq "Combinatorics" || c.isStrEq "Calculus" || c.isStrEq "General"

/-- `isValidDifficulty` (validator.ts). -/
def isValidDifficulty (d : JSVal) : Bool :=
  d.isStrEq "Easy" || d.isStrEq "Medium" || d.isStrEq "Hard"

/-- `isValidImageAlignment` (validator.ts). -/
def isValidImageAlignment (a : JSVal) : Bool :=
  a.isStrEq "center" || a.isStrEq "float-left" || a.isStrEq "float-right"

/-- `isValidImageSize` (validator.ts). -/
def isValidImageSize (s : JSVal) : Bool :=
  s.isStrEq "small" || s.isStrEq "medium" || s.isStrEq "large" || s.isStrEq "full"

/-- One tag check from `validateMetadata`'s `tags.forEach` body. -/
def tagErrors (path : String) (i : Nat) (tag : JSVal) : List ValidationError :=
  if !tag.isStrVal then
    [⟨path ++ ".tags[" ++ toString i ++ "]", "Tag must be a string", "INVALID_TYPE"⟩]
  else if tag.asStr.length == 0 || tag.asStr.length > 50 then
    [⟨path ++ ".tags[" ++ toString i ++ "]", "Tag must be 1-50 characters", "INVALID_LENGTH"⟩]
  else []

/-- `validateMetadata` (validator.ts lines 57-101); errors in push order. -/
def validateMetadata (metadata : JSVal) : List ValidationError :=
  let path := "metadata"
  (if !(metadata.getField "id").truthy || !(metadata.getField "id").isNumVal ||
      (metadata.getField "id").asNum < 1 then
    [⟨path ++ ".id", "ID must be a positive integer", "INVALID_VALUE"⟩]
  else []) ++
  (if !(metadata.getField "title").truthy || !(metadata.getField "title").isStrVal then
    [⟨path ++ ".title", "Title must be a non-empty string", "INVALID_VALUE"⟩]
  else if (metadata.getField "title").asStr.length > 200 then
    [⟨path ++ ".title", "Title must be 200 characters or less", "VALUE_TOO_LONG"⟩]
  else []) ++
  (if !(metadata.getField "contentType").truthy then
    [⟨path ++ ".contentType", "Missing required field: contentType", "MISSING_REQUIRED"⟩]
  else if !isValidContentType (metadata.getField "contentType") then
    [⟨path ++ ".contentType", "Invalid contentType. Must be \"problem\" or \"lesson\"", "INVALID_VALUE"⟩]
  else []) ++
  (if (metadata.getField "category").truthy && !isValidCategory (metadata.getField "category") then
    [⟨path ++ ".category", "Invalid category", "INVALID_VALUE"⟩]
  else []) ++
  (if (metadata.getField "difficulty").truthy && !isValidDifficulty (metadata.getField "difficulty") then
    [⟨path ++ ".difficulty", "Invalid difficulty. Must be \"Easy\", \"Medium\", or \"Hard\"", "INVALID_VALUE"⟩]
  else []) ++
  (if (metadata.getField "tags").isUndefined then []
   else if !(metadata.getField "tags").isArrVal then
    [⟨path ++ ".tags", "Tags must be an array", "INVALID_TYPE"⟩]
   else
    (if (metadata.getField "tags").asArr.length > 10 then
      [⟨path ++ ".tags", "Maximum 10 tags allowed", "ARRAY_TOO_LONG"⟩]
    else []) ++
    ((metadata.getField "tags").asArr.enum.map (fun p => tagErrors path p.1 p.2)).flatten)

/-- `validateParagraphBlock` (validator.ts). -/
def validateParagraphBlock (data : JSVal) (path : String) : List ValidationError :=
  if !(data.getField "text").truthy || !(data.getField "text").isStrVal then
    [⟨path ++ ".data.text", "Paragraph text must be a non-empty string", "INVALID_VALUE"⟩]
  else []

/-- `validateHeaderBlock` (validator.ts lines 181-191). -/
def validateHeaderBlock (data : JSVal) (path : String) : List ValidationError :=
  (if !(data.getField "text").truthy || !(data.getField "text").isStrVal then
    [⟨path ++ ".data.text", "Header text must be a non-empty string", "INVALID_VALUE"⟩]
  else []) ++
  (if !(data.getField "level").truthy || !(data.getField "level").isNumVal then
    [⟨path ++ ".data.level", "Header level is required", "MISSING_REQUIRED"⟩]
  else if (data.getField "level").asNum < 1 || (data.getField "level").asNum > 6 then
    [⟨path ++ ".data.level", "Header level must be between 1 and 6", "INVALID_VALUE"⟩]
  else [])

/-- One item check from `validateListBlock`'s `items.forEach` body. -/
def listItemErrors (path : String) (i : Nat) (item : JSVal) : List ValidationError :=
  if !item.isStrVal then
    [⟨path ++ ".data.items[" ++ toString i ++ "]", "List item must be a string", "INVALID_TYPE"⟩]
  else []

/-- `validateListBlock` (validator.ts). -/
def validateListBlock (data : JSVal) (path : String) : List ValidationError :=
  (if !(data.getField "style").truthy ||
      (!(data.getField "style").isStrEq "ordered" && !(data.getField "style").isStrEq "unordered") then
    [⟨path ++ ".data.style", "List style must be \"ordered\" or \"unordered\"", "INVALID_VALUE"⟩]
  else []) ++
  (if !(data.getField "items").isArrVal then
    [⟨path ++ ".data.items", "List items must be an array", "INVALID_TYPE"⟩]
  else if (data.getField "items").asArr.length == 0 then
    [⟨path ++ ".data.items", "List must have at least one item", "ARRAY_EMPTY"⟩]
  else
    ((data.getField "items").asArr.enum.map (fun p => listItemErrors path p.1 p.2)).flatten)

/-- `validateQuoteBlock` (validator.ts). -/
def validateQuoteBlock (data : JSVal) (path : String) : List ValidationError :=
  (if !(data.getField "text").truthy || !(data.getField "text").isStrVal then
    [⟨path ++ ".data.text", "Quote text must be a non-empty string", "INVALID_VALUE"⟩]
  else []) ++
  (if !(data.getField "caption").isUndefined && !(data.getField "caption").isStrVal then
    [⟨path ++ ".data.caption", "Quote caption must be a string", "INVALID_TYPE"⟩]
  else [])

/-- `validateMathBlock` (validator.ts). -/
def validateMathBlock (data : JSVal) (path : String) : List ValidationError :=
  (if !(data.getField "latex").truthy || !(data.getField "latex").isStrVal then
    [⟨path ++ ".data.latex", "Math LaTeX must be a non-empty string", "INVALID_VALUE"⟩]
  else []) ++
  (if (data.getField "display").isUndefined || !(data.getField "display").isBoolVal then
    [⟨path ++ ".data.display", "Math display must be a boolean", "INVALID_TYPE"⟩]
  else [])

/-- `validateImageBlock` (validator.ts lines 243-273). `urlOk` abstracts
success of the platform's `new URL(url)` constructor. -/
def validateImageBlock (urlOk : String → Bool) (data : JSVal) (path : String) :
    List ValidationError :=
  (if !(data.getField "url").truthy || !(data.getField "url").isStrVal then
    [⟨path ++ ".data.url", "Image URL must be a non-empty string", "INVALID_VALUE"⟩]
  else if urlOk (data.getField "url").asStr then []
  else if !jsStartsWith (data.getField "url").asStr "/"
      && !jsStartsWith (data.getField "url").asStr "data:" then
    [⟨path ++ ".data.url", "Image URL must be a valid URL, relative path, or data URI", "INVALID_VALUE"⟩]
  else []) ++
  (if !(data.getField "alt").isUndefined && !(data.getField "alt").isStrVal then
    [⟨path ++ ".data.alt", "Image alt text must be a string", "INVALID_TYPE"⟩]
  else []) ++
  (if !(data.getField "caption").isUndefined && !(data.getField "caption").isStrVal then
    [⟨path ++ ".data.caption", "Image caption must be a string", "INVALID_TYPE"⟩]
  else []) ++
  (if (data.getField "alignment").truthy && !isValidImageAlignment (data.getField "alignment") then
    [⟨path ++ ".data.alignment", "Invalid alignment. Must be \"center\", \"float-left\", or \"float-right\"", "INVALID_VALUE"⟩]
  else []) ++
  (if (data.getField "size").truthy && !isValidImageSize (data.getField "size") then
    [⟨path ++ ".data.size", "Invalid size. Must be \"small\", \"medium\", \"large\", or \"full\"", "INVALID_VALUE"⟩]
  else [])

/-- `validateBlock` (validator.ts lines 125-167). -/
def validateBlock (urlOk : String → Bool) (block : JSVal) (path : String) :
    List ValidationError :=
  if !block.truthy || block.typeofStr != "object" then
    [⟨path, "Block must be an object", "INVALID_TYPE"⟩]
  else if !(block.getField "type").truthy then
    [⟨path ++ ".type", "Missing required field: type", "MISSING_REQUIRED"⟩]
  else if !isValidBlockType (block.getField "type") then
    [⟨path ++ ".type", "Invalid block type", "INVALID_VALUE"⟩]
  else if !(block.getField "data").truthy || (block.getField "data").typeofStr != "object" then
    [⟨path ++ ".data", "Missing or invalid data object", "INVALID_TYPE"⟩]
  else if (block.getField "type").isStrEq "paragraph" then
    validateParagraphBlock (block.getField "data") path
  else if (block.getField "type").isStrEq "header" then
    validateHeaderBlock (block.getField "data") path
  else if (block.getField "type").isStrEq "list" then
    validateListBlock (block.getField "data") path
  else if (block.getField "type").isStrEq "quote" then
    validateQuoteBlock (block.getField "data") path
  else if (block.getField "type").isStrEq "math" then
    validateMathBlock (block.getField "data") path
  else if (block.getField "type").isStrEq "image" then
    validateImageBlock urlOk (block.getField "data") path
  else []

/-- `validateBlocks` (validator.ts lines 106-120). -/
def validateBlocks (urlOk : String → Bool) (blocks : JSVal) (path : String) :
    List ValidationError :=
  if !blocks.isArrVal then
    [⟨path, "Blocks must be an array", "INVALID_TYPE"⟩]
  else if blocks.asArr.length == 0 then
    [⟨path, "At least one block is required", "ARRAY_EMPTY"⟩]
  else
    (blocks.asArr.enum.map (fun p => validateBlock urlOk p.2 (path ++ "[" ++ toString p.1 ++ "]"))).flatten

/-- `validateSolution` (validator.ts lines 294-311). -/
def validateSolution (urlOk : String → Bool) (solution : JSVal) (path : String) :
    List ValidationError :=
  if !solution.truthy || solution.typeofStr != "object" then
    [⟨path, "Solution must be an object", "INVALID_TYPE"⟩]
  else
    (if !(solution.getField "title").truthy || !(solution.getField "title").isStrVal then
      [⟨path ++ ".title", "Solution title must be a non-empty string", "INVALID_VALUE"⟩]
    else if (solution.getField "title").asStr.length > 100 then
      [⟨path ++ ".title", "Solution title must be 100 characters or less", "VALUE_TOO_LONG"⟩]
    else []) ++
    (if !(solution.getField "blocks").truthy then
      [⟨path ++ ".blocks", "Solution blocks are required", "MISSING_REQUIRED"⟩]
    else validateBlocks urlOk (solution.getField "blocks") (path ++ ".blocks"))

/-- `validateSolutions` (validator.ts lines 278-289). -/
def validateSolutions (urlOk : String → Bool) (solutions : JSVal) : List ValidationError :=
  if !solutions.isArrVal then
    [⟨"solutions", "Solutions must be an array", "INVALID_TYPE"⟩]
  else
    (solutions.asArr.enum.map
      (fun p => validateSolution urlOk p.2 ("solutions[" ++ toString p.1 ++ "]"))).flatten

/-- `getResult` (validator.ts lines 350-355). -/
def getResult (errors : List ValidationError) : ValidationResult :=
  ⟨errors.length == 0, errors⟩

/-- `ContentValidator.validate` (validator.ts lines 25-52): resets the
accumulator (`this.errors = []`), short-circuits on a non-object root, then
accumulates metadata, statement and optional solutions errors.  Returns the
result together with the instance's state after the call. -/
def validate (urlOk : String → Bool) (st : ValidatorState) (content : JSVal) :
    ValidationResult × ValidatorState :=
  let _ := st
  if !content.truthy || content.typeofStr != "object" then
    let errors : List ValidationError := [⟨"root", "Content must be an object", "INVALID_TYPE"⟩]
    (getResult errors, ⟨errors⟩)
  else
    let errors :=
      (if !(content.getField "metadata").truthy then
        [⟨"root", "Missing required property: metadata", "MISSING_REQUIRED"⟩]
      else validateMetadata (content.getField "metadata")) ++
      (if !(content.getField "statement").truthy then
        [⟨"root", "Missing required property: statement", "MISSING_REQUIRED"⟩]
      else validateBlocks urlOk (content.getField "statement") "statement") ++
      (if (content.getField "solutions").isUndefined then []
       else validateSolutions urlOk (content.getField "solutions"))
    (getResult errors, ⟨errors⟩)

end ContentValidator

/-! ## Renderer (`renderer/html.ts`) -/

/-- `RenderOptions` (html.ts lines 17-26): every field optional. -/
structure RenderOptions where
  includeMetadata : Option Bool
  mathDelimiters : Option String
  imageBaseUrl : Option String
  cssWrapper : Option String
  cssStatement : Option String
  cssSolution : Option String

/-- The `Required<RenderOptions>` held in `this.options` after construction. -/
structure ResolvedOptions where
  includeMetadata : Bool
  mathDelimiters : String
  imageBaseUrl : String
  cssWrapper : String
  cssStatement : String
  cssSolution : String
deriving DecidableEq

namespace HTMLRenderer

/-- The `HTMLRenderer` constructor (html.ts lines 31-42): `??`-defaulting of
every option. -/
def resolveOptions (o : RenderOptions) : ResolvedOptions :=
  ⟨o.includeMetadata.getD true,
   o.mathDelimiters.getD "mathjax",
   o.imageBaseUrl.getD "",
   o.cssWrapper.getD "content-wrapper",
   o.cssStatement.getD "statement-block",
   o.cssSolution.getD "solution-block"⟩

/-- One step of `escapeHtml`'s regex replacement: the per-character map. -/
def escapeChar (c : Char) : String :=
  if c = '&' then "&amp;"
  else if c = '<' then "&lt;"
  else if c = '>' then "&gt;"
  else if c = '"' then "&quot;"
  else if c = Char.ofNat 39 then "&#039;"
  else String.singleton c

/-- `escapeHtml` (html.ts lines 240-249): `text.replace(/[&<>"']/g, m => map[m])`,
a left-to-right single-pass replacement. -/
def escapeHtml (text : String) : String :=
  text.data.foldl (fun acc c => acc ++ escapeChar c) ""

/-- A JavaScript call of `escapeHtml` whose argument may be `undefined`
(an absent optional field): `text.replace` on `undefined` raises `TypeError`. -/
def escapeHtmlJS : Option String → Except String String
  | none => .error "TypeError: Cannot read properties of undefined (reading replace)"
  | some s => .ok (escapeHtml s)

/-- Template-literal interpolation of a possibly-absent string
(`` `align-${alignment}` `` with `alignment === undefined` yields
`"align-undefined"`). -/
def jsStr : Option String → String
  | none => "undefined"
  | some s => s

/-- Truthiness of a possibly-absent string (`caption ? ... : ''`):
`undefined` and `""` are both falsy. -/
def truthyStr : Option String → Bool
  | none => false
  | some s => s.length != 0

/-- `renderParagraph` (html.ts lines 121-123): text emitted verbatim,
unescaped. -/
def renderParagraph (text : String) : String :=
  "<div class=\"content-block\"><p>" ++ text ++ "</p></div>"

/-- `renderHeader` (html.ts lines 128-131): text escaped, level interpolated
into the tag name. -/
def renderHeader (text : String) (level : Nat) : String :=
  let tag := "h" ++ toString level
  "<div class=\"content-block\"><" ++ tag ++ ">" ++ escapeHtml text ++ "</" ++ tag ++ "></div>"

/-- `renderQuote` (html.ts lines 148-161): text verbatim; optional caption
escaped inside a footer, omitted when falsy. -/
def renderQuote (text : String) (caption : Option String) : String :=
  let captionEl :=
    if truthyStr caption then
      "<footer class=\"quote-caption\">— " ++ escapeHtml (jsStr caption) ++ "</footer>"
    else ""
  "\n      <div class=\"content-block\">\n        <blockquote class=\"content-quote\">\n          <p>"
    ++ text ++ "</p>\n          " ++ captionEl ++ "\n        </blockquote>\n      </div>\n    "

/-- The `MathBlock.data` payload. -/
structure MathData where
  latex : String
  display : Bool
deriving DecidableEq

/-- `renderMath` (html.ts lines 166-172).  Note: the delimiter is chosen from
`display` alone; `this.options.mathDelimiters` is never consulted. -/
def renderMath (opts : ResolvedOptions) (block : MathData) : String :=
  let _ := opts
  let delim := if block.display then "$$" else "$"
  let wrapped := delim ++ block.latex ++ delim
  let className := if block.display then "math-display" else "math-inline"
  "<div class=\"content-block " ++ className ++ "\">" ++ wrapped ++ "</div>"

/-- The `ImageBlock.data` payload as the renderer destructures it; every
field but `url` may be absent at runtime (the validator accepts such blocks). -/
structure ImageData where
  url : String
  alt : Option String
  caption : Option String
  alignment : Option String
  size : Option String
deriving DecidableEq

/-- `renderImage` (html.ts lines 178-214).  `escapeHtml` applied to the
possibly-absent `alt` is the one place the renderer can raise. -/
def renderImage (opts : ResolvedOptions) (d : ImageData) : Except String String :=
  let alignClass := "align-" ++ jsStr d.alignment
  let sizeClass := "size-" ++ jsStr d.size
  let imgUrl := opts.imageBaseUrl ++ d.url
  match escapeHtmlJS d.alt with
  | .error e => .error e
  | .ok altEsc =>
    let imgElement := "<img src=\"" ++ escapeHtml imgUrl ++ "\" alt=\"" ++ altEsc
      ++ "\" loading=\"lazy\">"
    let captionElement :=
      if truthyStr d.caption then
        "<span class=\"image-caption\">" ++ escapeHtml (jsStr d.caption) ++ "</span>"
      else ""
    if d.alignment == some "float-left" || d.alignment == some "float-right" then
      .ok (("\n        <div class=\"image-block " ++ alignClass ++ " " ++ sizeClass
        ++ "\">\n          " ++ imgElement ++ "\n          " ++ captionElement
        ++ "\n        </div>") ++ "\n      ")
    else
      .ok ("\n      <div class=\"content-block\">"
        ++ ("\n        <div class=\"image-block "
          ++ alignClass ++ " " ++ sizeClass ++ "\">\n          " ++ imgElement
          ++ "\n          " ++ captionElement ++ "\n        </div>")
        ++ "\n      </div>\n    ")

/-- The image fragment shared verbatim by both branches of `renderImage`
(the `image-block` element), for alt-present inputs.  The float branch emits
exactly this fragment followed by closing whitespace; the center branch wraps
exactly this fragment in the `content-block` container. -/
def imageFragment (opts : ResolvedOptions) (d : ImageData) : String :=
  let alignClass := "align-" ++ jsStr d.alignment
  let sizeClass := "size-" ++ jsStr d.size
  let imgUrl := opts.imageBaseUrl ++ d.url
  let imgElement := "<img src=\"" ++ escapeHtml imgUrl ++ "\" alt=\""
    ++ escapeHtml (jsStr d.alt) ++ "\" loading=\"lazy\">"
  let captionElement :=
    if truthyStr d.caption then
      "<span class=\"image-caption\">" ++ escapeHtml (jsStr d.caption) ++ "</span>"
    else ""
  "\n        <div class=\"image-block " ++ alignClass ++ " " ++ sizeClass
    ++ "\">\n          " ++ imgElement ++ "\n          " ++ captionElement
    ++ "\n        </div>"

end HTMLRenderer

/-! ## The §3 data-model constraints (spec side)

The following predicates transcribe the spec's variant table and metadata
constraints (§3, refined by the per-variant constraints of §4.1).  They are
the hypothesis side of the round-trip claim and are deliberately written from
the spec's words, to be compared with the validator embedded above.  The
`solutionsNonEmpty` flag distinguishes §3's literal `blocks: ContentBlock[]
(≥0)` for solutions (`false`) from the amended constraint the code actually
enforces (`true`). -/

namespace Spec

/-- `v` is a plain object. -/
def isObjVal : JSVal → Bool
  | .obj _ => true
  | _ => false

/-- A positive integer (`id`). -/
def isPosInt : JSVal → Bool
  | .num n => n.den == 1 && decide (1 ≤ n)
  | _ => false

/-- A string of length between `lo` and `hi`. -/
def strLenBetween (lo hi : Nat) : JSVal → Bool
  | .str s => decide (lo ≤ s.length) && decide (s.length ≤ hi)
  | _ => false

/-- A non-empty string. -/
def nonEmptyStr : JSVal → Bool
  | .str s => s.length != 0
  | _ => false

/-- An integer in `[lo, hi]` (`header.level`). -/
def intBetween (lo hi : Nat) : JSVal → Bool
  | .num n => n.den == 1 && decide ((lo : Rat) ≤ n) && decide (n ≤ (hi : Rat))
  | _ => false

/-- An optional string field: absent, or a string. -/
def optionalStr : JSVal → Bool
  | .undefined => true
  | .str _ => true
  | _ => false

/-- The §3 `contentType` enum. -/
def contentTypeOk (v : JSVal) : Bool :=
  v.isStrEq "problem" || v.isStrEq "lesson"

/-- The §3 six-value `category` enum. -/
def categoryOk (v : JSVal) : Bool :=
  v.isStrEq "Algebra" || v.isStrEq "Geometry" || v.isStrEq "Number Theory" ||
  v.isStrEq "Combinatorics" || v.isStrEq "Calculus" || v.isStrEq "General"

/-- The §3 `difficulty` enum. -/
def difficultyOk (v : JSVal) : Bool :=
  v.isStrEq "Easy" || v.isStrEq "Medium" || v.isStrEq "Hard"

/-- The §3 image `alignment` enum. -/
def alignmentOk (v : JSVal) : Bool :=
  v.isStrEq "center" || v.isStrEq "float-left" || v.isStrEq "float-right"

/-- The §3 image `size` enum. -/
def sizeOk (v : JSVal) : Bool :=
  v.isStrEq "small" || v.isStrEq "medium" || v.isStrEq "large" || v.isStrEq "full"

/-- §3 `tags`: 0-10 strings of 1-50 characters each. -/
def tagsOk : JSVal → Bool
  | .arr ts => decide (ts.length ≤ 10) && ts.all (strLenBetween 1 50)
  | _ => false

/-- §3 metadata with valid `id`, `title`, `contentType`, `category`,
`difficulty` and `tags` (the fields the validator inspects; `author`,
`draft`, `timestamp` are unconstrained here as the validator ignores them). -/
def wfMetadata (m : JSVal) : Bool :=
  isObjVal m &&
  isPosInt (m.getField "id") &&
  strLenBetween 1 200 (m.getField "title") &&
  contentTypeOk (m.getField "contentType") &&
  categoryOk (m.getField "category") &&
  difficultyOk (m.getField "difficulty") &&
  tagsOk (m.getField "tags")

/-- A well-formed block per the §3 variant table (with §4.1's per-variant
constraints).  `urlOk` abstracts "parses as an absolute URL". -/
def wfBlock (urlOk : String → Bool) (b : JSVal) : Bool :=
  isObjVal b &&
  isObjVal (b.getField "data") &&
  (let t := b.getField "type"
   let d := b.getField "data"
   if t.isStrEq "paragraph" then nonEmptyStr (d.getField "text")
   else if t.isStrEq "header" then
     nonEmptyStr (d.getField "text") && intBetween 1 6 (d.getField "level")
   else if t.isStrEq "list" then
     ((d.getField "style").isStrEq "ordered" || (d.getField "style").isStrEq "unordered") &&
     (match d.getField "items" with
      | .arr xs => !xs.isEmpty && xs.all JSVal.isStrVal
      | _ => false)
   else if t.isStrEq "quote" then
     nonEmptyStr (d.getField "text") && optionalStr (d.getField "caption")
   else if t.isStrEq "math" then
     nonEmptyStr (d.getField "latex") && (d.getField "display").isBoolVal
   else if t.isStrEq "image" then
     (match d.getField "url" with
      | .str s => s.length != 0 && (urlOk s || jsStartsWith s "/" || jsStartsWith s "data:")
      | _ => false) &&
     optionalStr (d.getField "alt") && optionalStr (d.getField "caption") &&
     ((d.getField "alignment").isUndefined || alignmentOk (d.getField "alignment")) &&
     ((d.getField "size").isUndefined || sizeOk (d.getField "size"))
   else false)

/-- A well-formed §3 solution: `title` of 1-100 characters and an array of
well-formed blocks; `requireBlocks` demands the array be non-empty (the
amendment), while `false` is §3's literal `(≥0)`. -/
def wfSolution (urlOk : String → Bool) (requireBlocks : Bool) (s : JSVal) : Bool :=
  isObjVal s &&
  strLenBetween 1 100 (s.getField "title") &&
  (match s.getField "blocks" with
   | .arr bs => (!requireBlocks || !bs.isEmpty) && bs.all (wfBlock urlOk)
   | _ => false)

/-- A well-formed §3 `CanonicalContent`: metadata, a non-empty statement of
well-formed blocks, and optionally an array of well-formed solutions. -/
def wfContent (urlOk : String → Bool) (requireBlocks : Bool) (c : JSVal) : Bool :=
  isObjVal c &&
  wfMetadata (c.getField "metadata") &&
  (match c.getField "statement" with
   | .arr bs => !bs.isEmpty && bs.all (wfBlock urlOk)
   | _ => false) &&
  (match c.getField "solutions" with
   | .undefined => true
   | .arr ss => ss.all (wfSolution urlOk requireBlocks)
   | _ => false)

end Spec

/-! ## Concrete example values used by the claims -/

/-- The rational `1.5`, built with explicit numerator and denominator so that
it reduces in the kernel (`Rat` division does not). -/
def threeHalves : Rat := ⟨3, 2, by decide, by norm_num⟩

/-- A metadata object satisfying every §3 constraint. -/
def fullMetadata : JSVal :=
  .obj [("id", .num 1), ("title", .str "T"), ("contentType", .str "problem"),
        ("category", .str "Algebra"), ("difficulty", .str "Easy"),
        ("tags", .arr [.str "tag"])]

/-- The spec's §8 path-fidelity input: valid metadata and a single header
block with `level: 9`. -/
def headerLevel9Content : JSVal :=
  .obj [("metadata", fullMetadata),
        ("statement", .arr [.obj [("type", .str "header"),
          ("data", .obj [("text", .str "x"), ("level", .num 9)])]])]

/-- A content object built from the §3 table with every §3 constraint
satisfied, whose single solution has an empty (per §3: `≥ 0`) blocks array. -/
def emptyBlocksSolutionContent : JSVal :=
  .obj [("metadata", fullMetadata),
        ("statement", .arr [.obj [("type", .str "paragraph"),
          ("data", .obj [("text", .str "hi")])]]),
        ("solutions", .arr [.obj [("title", .str "S"), ("blocks", .arr [])]])]

/-- A fully well-formed content exercising all six block variants and a
non-empty solution. -/
def allVariantsContent : JSVal :=
  .obj [("metadata", fullMetadata),
        ("statement", .arr [
          .obj [("type", .str "paragraph"), ("data", .obj [("text", .str "p")])],
          .obj [("type", .str "header"),
                ("data", .obj [("text", .str "h"), ("level", .num 2)])],
          .obj [("type", .str "list"),
                ("data", .obj [("style", .str "ordered"), ("items", .arr [.str "i"])])],
          .obj [("type", .str "quote"),
                ("data", .obj [("text", .str "q"), ("caption", .str "c")])],
          .obj [("type", .str "math"),
                ("data", .obj [("latex", .str "x"), ("display", .bool true)])],
          .obj [("type", .str "image"),
                ("data", .obj [("url", .str "/i.png"), ("alt", .str "a"),
                               ("alignment", .str "center"), ("size", .str "small")])]]),
        ("solutions", .arr [.obj [("title", .str "S"),
          ("blocks", .arr [.obj [("type", .str "paragraph"),
            ("data", .obj [("text", .str "s")])]])]])]

/-! ## Helper lemmas -/

lemma strEq_of_data {s t : String} (h : s.data = t.data) : s = t := by
  cases s; cases t; simp_all

lemma strAppend_left_cancel {p a b : String} (h : p ++ a = p ++ b) : a = b := by
  apply strEq_of_data
  have hd := congrArg String.data h
  rw [String.data_append, String.data_append] at hd
  exact List.append_cancel_left hd

lemma strCharAt {s : String} (t : String) {n : Nat} {c : Char}
    (h : s.data[n]? = some c) : (s ++ t).data[n]? = some c := by
  have hlt : n < s.data.length := (List.getElem?_eq_some.mp h).1
  rw [String.data_append, List.getElem?_append_left hlt]
  exact h

lemma strBEq_false_of_charAt {s t : String} {n : Nat} {c1 c2 : Char}
    (h1 : s.data[n]? = some c1) (h2 : t.data[n]? = some c2) (hne : c1 ≠ c2) :
    (s == t) = false := by
  rw [beq_eq_false_iff_ne]
  intro h
  rw [h, h2] at h1
  exact hne (Option.some.inj h1.symm)

lemma filter_if_singleton (c : Prop) [Decidable c] (e : ValidationError)
    (p : ValidationError → Bool) :
    (if c then [e] else []).filter p =
      if c then (if p e then [e] else []) else [] := by
  split_ifs with h1 hp <;> simp_all [List.filter]

lemma filter_if_two (c1 c2 : Prop) [Decidable c1] [Decidable c2]
    (e1 e2 : ValidationError) (p : ValidationError → Bool) :
    (if c1 then [e1] else if c2 then [e2] else []).filter p =
      if c1 then (if p e1 then [e1] else [])
      else if c2 then (if p e2 then [e2] else []) else [] := by
  split_ifs <;> simp_all [List.filter]

lemma flatten_enumFrom_nil {α β : Type} (f : Nat → α → List β) (l : List α) (n : Nat)
    (h : ∀ a ∈ l, ∀ i, f i a = []) :
    ((List.enumFrom n l).map (fun p => f p.1 p.2)).flatten = [] := by
  induction l generalizing n with
  | nil => rfl
  | cons x xs ih =>
    simp only [List.enumFrom, List.map, List.flatten]
    rw [h x (by simp), ih n.succ (fun a ha i => h a (by simp [ha]) i)]
    rfl

lemma flatten_enum_nil {α β : Type} (f : Nat → α → List β) (l : List α)
    (h : ∀ a ∈ l, ∀ i, f i a = []) :
    (l.enum.map (fun p => f p.1 p.2)).flatten = [] :=
  flatten_enumFrom_nil f l 0 h

/-! ## Claim theorems -/

/-- C3 (code_bug evidence): the renderer is claimed never to throw on absent
optional fields, and indeed an image with absent `caption`, `alignment` and
`size` renders (with `align-undefined`/`size-undefined` class tokens and the
center wrapping), and a quote with absent `caption` renders with the footer
omitted — but an image block whose optional `alt` is absent makes
`renderImage` pass `undefined` to `escapeHtml`, whose `text.replace` raises a
`TypeError` instead of returning markup. -/
theorem renderImage_missing_alt_raises :
    HTMLRenderer.renderImage (HTMLRenderer.resolveOptions ⟨none, none, none, none, none, none⟩)
        ⟨"/a.png", none, none, some "center", some "small"⟩
      = Except.error "TypeError: Cannot read properties of undefined (reading replace)" ∧
    HTMLRenderer.renderImage (HTMLRenderer.resolveOptions ⟨none, none, none, none, none, none⟩)
        ⟨"/a.png", some "pic", none, none, none⟩
      = Except.ok "\n      <div class=\"content-block\">\n        <div class=\"image-block align-undefined size-undefined\">\n          <img src=\"/a.png\" alt=\"pic\" loading=\"lazy\">\n          \n        </div>\n      </div>\n    " ∧
    HTMLRenderer.renderQuote "q" none
      = "\n      <div class=\"content-block\">\n        <blockquote class=\"content-quote\">\n          <p>q</p>\n          \n        </blockquote>\n      </div>\n    " :=
  ⟨rfl, rfl, rfl⟩

/-- C4: `validate` is total over arbitrary runtime values, and whenever the
input fails the JavaScript object test (falsy — `null`, `undefined`, `0`,
`""`, `false` — or `typeof` other than `"object"`; arrays are `typeof
"object"` and proceed to the field checks), it returns exactly one error, at
path `root` with code `INVALID_TYPE`, and performs no further checks. -/
theorem validate_nonobject_single_root_error (urlOk : String → Bool) (st : ValidatorState)
    (content : JSVal) (h : ¬ (content.truthy = true ∧ content.typeofStr = "object")) :
    ContentValidator.validate urlOk st content =
      (⟨false, [⟨"root", "Content must be an object", "INVALID_TYPE"⟩]⟩,
       ⟨[⟨"root", "Content must be an object", "INVALID_TYPE"⟩]⟩) := by
  have hcond : (!content.truthy || content.typeofStr != "object") = true := by
    by_cases h1 : content.truthy = true <;> by_cases h2 : content.typeofStr = "object" <;>
      simp_all
  unfold ContentValidator.validate
  simp [hcond, ContentValidator.getResult]

/-- Witness for C4 at the concrete non-object input `null`. -/
theorem validate_nonobject_single_root_error_witness :
    ContentValidator.validate (fun _ => false) ⟨[]⟩ JSVal.null =
      (⟨false, [⟨"root", "Content must be an object", "INVALID_TYPE"⟩]⟩,
       ⟨[⟨"root", "Content must be an object", "INVALID_TYPE"⟩]⟩) :=
  validate_nonobject_single_root_error (fun _ => false) ⟨[]⟩ JSVal.null
    (by simp [JSVal.truthy])

/-- C7 (code_bug evidence): `renderMath` does wrap the latex verbatim in the
delimiter pair selected by the `display` flag (double for display, single for
inline) with a distinguishing class, but it never consults the
`mathDelimiters` option: its output is identical for any two option records,
so rendering under `"katex"` equals rendering under `"mathjax"` for every
math block, contradicting the claim that the option selects a different
delimiter convention. -/
theorem renderMath_ignores_mathDelimiters :
    (∀ (o1 o2 : ResolvedOptions) (b : HTMLRenderer.MathData),
        HTMLRenderer.renderMath o1 b = HTMLRenderer.renderMath o2 b) ∧
    (HTMLRenderer.resolveOptions ⟨none, some "katex", none, none, none, none⟩).mathDelimiters
      = "katex" ∧
    HTMLRenderer.renderMath
        (HTMLRenderer.resolveOptions ⟨none, some "katex", none, none, none, none⟩) ⟨"x", false⟩
      = "<div class=\"content-block math-inline\">$x$</div>" ∧
    HTMLRenderer.renderMath
        (HTMLRenderer.resolveOptions ⟨none, some "mathjax", none, none, none, none⟩) ⟨"x", false⟩
      = "<div class=\"content-block math-inline\">$x$</div>" ∧
    HTMLRenderer.renderMath
        (HTMLRenderer.resolveOptions ⟨none, none, none, none, none, none⟩) ⟨"y", true⟩
      = "<div class=\"content-block math-display\">$$y$$</div>" :=
  ⟨fun _ _ _ => rfl, rfl, rfl, rfl, rfl⟩

/-- C8: the accumulator is reset at entry to every `validate` call, so a
second call on a used instance returns exactly what a fresh instance
(whose `errors` field initialises to `[]`) returns on the same input —
no error leakage between invocations. -/
theorem validate_fresh_accumulator_per_call (urlOk : String → Bool) (a b : JSVal)
    (st : ValidatorState) :
    (ContentValidator.validate urlOk (ContentValidator.validate urlOk st a).2 b).1 =
      (ContentValidator.validate urlOk ⟨[]⟩ b).1 := rfl

lemma escape_foldl (l : List Char) (init : String) :
    l.foldl (fun acc c => acc ++ HTMLRenderer.escapeChar c) init
      = init ++ l.foldl (fun acc c => acc ++ HTMLRenderer.escapeChar c) "" := by
  induction l generalizing init with
  | nil => simp [List.foldl, String.append_empty]
  | cons c cs ih =>
    simp only [List.foldl]
    rw [ih (init ++ HTMLRenderer.escapeChar c), ih ("" ++ HTMLRenderer.escapeChar c),
      String.empty_append, String.append_assoc]

lemma escapeHtml_append (s t : String) :
    HTMLRenderer.escapeHtml (s ++ t)
      = HTMLRenderer.escapeHtml s ++ HTMLRenderer.escapeHtml t := by
  unfold HTMLRenderer.escapeHtml
  rw [String.data_append, List.foldl_append, escape_foldl]

lemma escapeHtml_singleton (c : Char) :
    HTMLRenderer.escapeHtml (String.singleton c) = HTMLRenderer.escapeChar c := by
  unfold HTMLRenderer.escapeHtml
  show ("" ++ HTMLRenderer.escapeChar c) = HTMLRenderer.escapeChar c
  exact String.empty_append _

/-- C5: exactly the five characters of the escaping policy are altered by the
shared `escapeHtml` routine (which is a character-wise homomorphism), each to
its named entity; `renderHeader` routes its text through that routine while
`renderParagraph` emits its text verbatim — on the spec's `"<b>x</b>"`
example the header output carries entities and the paragraph output carries
the literal markup. -/
theorem escaping_policy_and_asymmetry :
    (∀ c : Char, HTMLRenderer.escapeHtml (String.singleton c) ≠ String.singleton c ↔
      (c = '&' ∨ c = '<' ∨ c = '>' ∨ c = '"' ∨ c = Char.ofNat 39)) ∧
    HTMLRenderer.escapeHtml "&" = "&amp;" ∧
    HTMLRenderer.escapeHtml "<" = "&lt;" ∧
    HTMLRenderer.escapeHtml ">" = "&gt;" ∧
    HTMLRenderer.escapeHtml "\"" = "&quot;" ∧
    HTMLRenderer.escapeHtml (String.singleton (Char.ofNat 39)) = "&#039;" ∧
    (∀ s t, HTMLRenderer.escapeHtml (s ++ t)
      = HTMLRenderer.escapeHtml s ++ HTMLRenderer.escapeHtml t) ∧
    (∀ text level, HTMLRenderer.renderHeader text level =
      "<div class=\"content-block\"><" ++ ("h" ++ toString level) ++ ">"
        ++ HTMLRenderer.escapeHtml text ++ "</" ++ ("h" ++ toString level) ++ "></div>") ∧
    (∀ text, HTMLRenderer.renderParagraph text
      = "<div class=\"content-block\"><p>" ++ text ++ "</p></div>") ∧
    HTMLRenderer.renderHeader "<b>x</b>" 2
      = "<div class=\"content-block\"><h2>&lt;b&gt;x&lt;/b&gt;</h2></div>" ∧
    HTMLRenderer.renderParagraph "<b>x</b>"
      = "<div class=\"content-block\"><p><b>x</b></p></div>" := by
  refine ⟨?_, rfl, rfl, rfl, rfl, rfl, escapeHtml_append, fun _ _ => rfl, fun _ => rfl, rfl, rfl⟩
  intro c
  rw [escapeHtml_singleton]
  unfold HTMLRenderer.escapeChar
  split_ifs with h1 h2 h3 h4 h5
  · subst h1; simp; decide
  · subst h2; simp; decide
  · subst h3; simp; decide
  · subst h4; simp; decide
  · subst h5; simp; decide
  · simp [h1, h2, h3, h4, h5]

/-- C6 counterexample: in `{ text: "x", level: 0 }` the `level` field is
present and is a number outside `[1,6]`, so the claim requires the error
`INVALID_VALUE`; but `0` is falsy, `!data.level` is true, and the validator
emits `MISSING_REQUIRED` instead (and no `INVALID_VALUE` at all). -/
theorem validateHeader_level_zero_counterexample :
    ContentValidator.validateHeaderBlock
        (JSVal.obj [("text", JSVal.str "x"), ("level", JSVal.num 0)]) "statement[0]"
      = [⟨"statement[0].data.level", "Header level is required", "MISSING_REQUIRED"⟩] ∧
    ((JSVal.obj [("text", JSVal.str "x"), ("level", JSVal.num 0)]).getField "level").isUndefined
      = false ∧
    ((JSVal.obj [("text", JSVal.str "x"), ("level", JSVal.num 0)]).getField "level").isNumVal
      = true ∧
    ((JSVal.obj [("text", JSVal.str "x"), ("level", JSVal.num 0)]).getField "level").asNum < 1 := by
  refine ⟨by decide, by decide, by decide, by decide⟩

/-- C6 (amended): among the errors `validateHeaderBlock` reports at
`P.data.level`, `MISSING_REQUIRED` is emitted iff `level` is falsy (absent,
`0`, `""`, …) or not a number, and `INVALID_VALUE` iff `level` is a truthy
number outside `[1,6]`; on the spec's concrete input (valid metadata and a
single header with `level: 9`) the sole error of the whole `validate` call
has path `statement[0].data.level` and code `INVALID_VALUE`. -/
theorem validateHeader_level_error_characterisation (data : JSVal) (path : String) :
    ((ContentValidator.validateHeaderBlock data path).filter
        (fun e => e.path == path ++ ".data.level") =
      (if !(data.getField "level").truthy || !(data.getField "level").isNumVal then
        [⟨path ++ ".data.level", "Header level is required", "MISSING_REQUIRED"⟩]
      else if (data.getField "level").asNum < 1 || (data.getField "level").asNum > 6 then
        [⟨path ++ ".data.level", "Header level must be between 1 and 6", "INVALID_VALUE"⟩]
      else [])) ∧
    (ContentValidator.validate (fun _ => false) ⟨[]⟩ headerLevel9Content).1 =
      ⟨false, [⟨"statement[0].data.level", "Header level must be between 1 and 6",
                "INVALID_VALUE"⟩]⟩ := by
  constructor
  · unfold ContentValidator.validateHeaderBlock
    rw [List.filter_append, filter_if_singleton, filter_if_two]
    have htext :
        ((⟨path ++ ".data.text", "Header text must be a non-empty string",
           "INVALID_VALUE"⟩ : ValidationError).path == path ++ ".data.level") = false := by
      rw [beq_eq_false_iff_ne]
      intro h
      exact absurd (strAppend_left_cancel h) (by decide)
    simp [htext, beq_self_eq_true]
  · decide

lemma tagErrors_path_char9 {e : ValidationError} {i : Nat} {tag : JSVal}
    (he : e ∈ ContentValidator.tagErrors "metadata" i tag) :
    e.path.data[9]? = some 't' := by
  unfold ContentValidator.tagErrors at he
  have h0 : ("metadata" ++ ".tags[").data[9]? = some 't' := rfl
  split_ifs at he <;> simp only [List.mem_singleton, List.not_mem_nil] at he
  · subst he
    exact strCharAt "]" (strCharAt (toString i) h0)
  · subst he
    exact strCharAt "]" (strCharAt (toString i) h0)

lemma filter_tagErrors_nil (l : List (Nat × JSVal)) (target : String) (c : Char)
    (h : target.data[9]? = some c) (hc : c ≠ 't') :
    ((l.map (fun p => ContentValidator.tagErrors "metadata" p.1 p.2)).flatten).filter
      (fun e => e.path == target) = [] := by
  rw [List.filter_eq_nil_iff]
  intro e he
  rw [List.mem_flatten] at he
  obtain ⟨sub, hsub, hesub⟩ := he
  rw [List.mem_map] at hsub
  obtain ⟨p, _, rfl⟩ := hsub
  have h9 := tagErrors_path_char9 hesub
  simp [strBEq_false_of_charAt h9 h (fun hh => hc hh.symm)]

/-- C9 (amended): `validateMetadata` reports an `INVALID_VALUE` error at
`metadata.id` iff `id` is falsy, not a number, or a number `< 1`; it does not
enforce integrality, so any (possibly non-integer) number `≥ 1` passes
without an error at `metadata.id`. -/
theorem validateMetadata_id_error_characterisation (m : JSVal) :
    (ContentValidator.validateMetadata m).filter (fun e => e.path == "metadata.id") =
      if !(m.getField "id").truthy || !(m.getField "id").isNumVal ||
          (m.getField "id").asNum < 1 then
        [⟨"metadata.id", "ID must be a positive integer", "INVALID_VALUE"⟩]
      else [] := by
  unfold ContentValidator.validateMetadata
  rw [List.filter_append, List.filter_append, List.filter_append, List.filter_append,
    List.filter_append, filter_if_singleton, filter_if_two, filter_if_two,
    filter_if_singleton, filter_if_singleton]
  have htags : ((if (m.getField "tags").isUndefined then []
      else if !(m.getField "tags").isArrVal then
        [⟨"metadata" ++ ".tags", "Tags must be an array", "INVALID_TYPE"⟩]
      else
        (if (m.getField "tags").asArr.length > 10 then
          [⟨"metadata" ++ ".tags", "Maximum 10 tags allowed", "ARRAY_TOO_LONG"⟩]
        else []) ++
        ((m.getField "tags").asArr.enum.map
          (fun p => ContentValidator.tagErrors "metadata" p.1 p.2)).flatten).filter
            (fun e => e.path == "metadata.id")) = [] := by
    split_ifs with h1 h2 h3
    · rfl
    · decide
    · rw [List.filter_append, filter_tagErrors_nil _ "metadata.id" 'i' rfl (by decide)]
      decide
    · rw [List.filter_append, filter_tagErrors_nil _ "metadata.id" 'i' rfl (by decide)]
      decide
  rw [htags]
  have hid : ((⟨"metadata" ++ ".id", "ID must be a positive integer",
      "INVALID_VALUE"⟩ : ValidationError) = ⟨"metadata.id", "ID must be a positive integer",
      "INVALID_VALUE"⟩) := rfl
  have h1 : (("metadata" ++ ".id" : String) == "metadata.id") = true := by decide
  have h2 : (("metadata" ++ ".title" : String) == "metadata.id") = false := by decide
  have h3 : (("metadata" ++ ".contentType" : String) == "metadata.id") = false := by decide
  have h4 : (("metadata" ++ ".category" : String) == "metadata.id") = false := by decide
  have h5 : (("metadata" ++ ".difficulty" : String) == "metadata.id") = false := by decide
  simp [h1, h2, h3, h4, h5, hid]

/-- C9 counterexample: `id: 1.5` is not a positive integer (its denominator
is `2`), yet `validateMetadata` on an otherwise-valid metadata object reports
no error at all — the source only checks truthiness, `typeof number` and
`>= 1`, contradicting the claim that every non-positive-integer `id` draws
`INVALID_VALUE` at `metadata.id`. -/
theorem validateMetadata_accepts_id_three_halves :
    ContentValidator.validateMetadata
        (JSVal.obj [("id", JSVal.num threeHalves), ("title", JSVal.str "T"),
                    ("contentType", JSVal.str "problem")]) = [] ∧
    threeHalves.den = 2 ∧ (1 : Rat) ≤ threeHalves := by
  refine ⟨by decide, rfl, by decide⟩

/-- C10: the presence tests for the optional enum fields use JavaScript
truthiness, so `validateMetadata` reports an error at `metadata.category`
(resp. `metadata.difficulty`) iff the value is truthy and outside the enum; a
present-but-falsy value — `""`, `0`, `false`, `null` — is silently accepted
even though it is not an enum member, and a whole content carrying
`category: ""` and `difficulty: 0` validates as `valid` with no errors. -/
theorem validateMetadata_falsy_enum_fields_accepted (m : JSVal) :
    ((ContentValidator.validateMetadata m).filter (fun e => e.path == "metadata.category") =
      if (m.getField "category").truthy &&
          !ContentValidator.isValidCategory (m.getField "category") then
        [⟨"metadata.category", "Invalid category", "INVALID_VALUE"⟩]
      else []) ∧
    ((ContentValidator.validateMetadata m).filter (fun e => e.path == "metadata.difficulty") =
      if (m.getField "difficulty").truthy &&
          !ContentValidator.isValidDifficulty (m.getField "difficulty") then
        [⟨"metadata.difficulty", "Invalid difficulty. Must be \"Easy\", \"Medium\", or \"Hard\"",
          "INVALID_VALUE"⟩]
      else []) ∧
    ContentValidator.isValidCategory (JSVal.str "") = false ∧
    ContentValidator.isValidDifficulty (JSVal.num 0) = false ∧
    (JSVal.str "").truthy = false ∧ (JSVal.num 0).truthy = false ∧
    (ContentValidator.validate (fun _ => false) ⟨[]⟩
      (JSVal.obj [("metadata", JSVal.obj [("id", JSVal.num 1), ("title", JSVal.str "T"),
            ("contentType", JSVal.str "problem"), ("category", JSVal.str ""),
            ("difficulty", JSVal.num 0)]),
          ("statement", JSVal.arr [JSVal.obj [("type", JSVal.str "paragraph"),
            ("data", JSVal.obj [("text", JSVal.str "hi")])]])])).1 = ⟨true, []⟩ := by
  refine ⟨?_, ?_, by decide, by decide, by decide, by decide, by decide⟩
  · unfold ContentValidator.validateMetadata
    rw [List.filter_append, List.filter_append, List.filter_append, List.filter_append,
      List.filter_append, filter_if_singleton, filter_if_two, filter_if_two,
      filter_if_singleton, filter_if_singleton]
    have htags : ((if (m.getField "tags").isUndefined then []
        else if !(m.getField "tags").isArrVal then
          [⟨"metadata" ++ ".tags", "Tags must be an array", "INVALID_TYPE"⟩]
        else
          (if (m.getField "tags").asArr.length > 10 then
            [⟨"metadata" ++ ".tags", "Maximum 10 tags allowed", "ARRAY_TOO_LONG"⟩]
          else []) ++
          ((m.getField "tags").asArr.enum.map
            (fun p => ContentValidator.tagErrors "metadata" p.1 p.2)).flatten).filter
              (fun e => e.path == "metadata.category")) = [] := by
      split_ifs with h1 h2 h3
      · rfl
      · decide
      · rw [List.filter_append,
          filter_tagErrors_nil _ "metadata.category" 'c' rfl (by decide)]
        decide
      · rw [List.filter_append,
          filter_tagErrors_nil _ "metadata.category" 'c' rfl (by decide)]
        decide
    rw [htags]
    have hcat : ((⟨"metadata" ++ ".category", "Invalid category",
        "INVALID_VALUE"⟩ : ValidationError) = ⟨"metadata.category", "Invalid category",
        "INVALID_VALUE"⟩) := rfl
    have h1 : (("metadata" ++ ".id" : String) == "metadata.category") = false := by decide
    have h2 : (("metadata" ++ ".title" : String) == "metadata.category") = false := by decide
    have h3 : (("metadata" ++ ".contentType" : String) == "metadata.category") = false := by
      decide
    have h4 : (("metadata" ++ ".category" : String) == "metadata.category") = true := by decide
    have h5 : (("metadata" ++ ".difficulty" : String) == "metadata.category") = false := by
      decide
    simp [h1, h2, h3, h4, h5, hcat]
  · unfold ContentValidator.validateMetadata
    rw [List.filter_append, List.filter_append, List.filter_append, List.filter_append,
      List.filter_append, filter_if_singleton, filter_if_two, filter_if_two,
      filter_if_singleton, filter_if_singleton]
    have htags : ((if (m.getField "tags").isUndefined then []
        else if !(m.getField "tags").isArrVal then
          [⟨"metadata" ++ ".tags", "Tags must be an array", "INVALID_TYPE"⟩]
        else
          (if (m.getField "tags").asArr.length > 10 then
            [⟨"metadata" ++ ".tags", "Maximum 10 tags allowed", "ARRAY_TOO_LONG"⟩]
          else []) ++
          ((m.getField "tags").asArr.enum.map
            (fun p => ContentValidator.tagErrors "metadata" p.1 p.2)).flatten).filter
              (fun e => e.path == "metadata.difficulty")) = [] := by
      split_ifs with h1 h2 h3
      · rfl
      · decide
      · rw [List.filter_append,
          filter_tagErrors_nil _ "metadata.difficulty" 'd' rfl (by decide)]
        decide
      · rw [List.filter_append,
          filter_tagErrors_nil _ "metadata.difficulty" 'd' rfl (by decide)]
        decide
    rw [htags]
    have hdiff : ((⟨"metadata" ++ ".difficulty",
        "Invalid difficulty. Must be \"Easy\", \"Medium\", or \"Hard\"",
        "INVALID_VALUE"⟩ : ValidationError) = ⟨"metadata.difficulty",
        "Invalid difficulty. Must be \"Easy\", \"Medium\", or \"Hard\"",
        "INVALID_VALUE"⟩) := rfl
    have h1 : (("metadata" ++ ".id" : String) == "metadata.difficulty") = false := by decide
    have h2 : (("metadata" ++ ".title" : String) == "metadata.difficulty") = false := by decide
    have h3 : (("metadata" ++ ".contentType" : String) == "metadata.difficulty") = false := by
      decide
    have h4 : (("metadata" ++ ".category" : String) == "metadata.difficulty") = false := by
      decide
    have h5 : (("metadata" ++ ".difficulty" : String) == "metadata.difficulty") = true := by
      decide
    simp [h1, h2, h3, h4, h5, hdiff]

/-- C2: for an image block (with `alt` present, so the render returns), a
`float-left`/`float-right` alignment makes `renderImage` emit the
`image-block` fragment bare — the output is exactly the fragment plus closing
whitespace, with no surrounding container — while `center` (or an absent,
defaulted alignment) wraps exactly the same-shaped fragment in the
`<div class="content-block">` container used by the other block types; the
two outputs differ in nesting (they disagree at character 7, where the
wrapped output has already opened the container), for every url, caption,
size and base-url option. -/
theorem renderImage_float_bare_center_wrapped (opts : ResolvedOptions)
    (url alt : String) (caption size : Option String) (al : String)
    (hal : al = "float-left" ∨ al = "float-right") :
    HTMLRenderer.renderImage opts ⟨url, some alt, caption, some al, size⟩
        = Except.ok
            (HTMLRenderer.imageFragment opts ⟨url, some alt, caption, some al, size⟩
              ++ "\n      ") ∧
    HTMLRenderer.renderImage opts ⟨url, some alt, caption, some "center", size⟩
        = Except.ok ("\n      <div class=\"content-block\">"
            ++ HTMLRenderer.imageFragment opts ⟨url, some alt, caption, some "center", size⟩
            ++ "\n      </div>\n    ") ∧
    HTMLRenderer.renderImage opts ⟨url, some alt, caption, none, size⟩
        = Except.ok ("\n      <div class=\"content-block\">"
            ++ HTMLRenderer.imageFragment opts ⟨url, some alt, caption, none, size⟩
            ++ "\n      </div>\n    ") ∧
    HTMLRenderer.renderImage opts ⟨url, some alt, caption, some al, size⟩
        ≠ HTMLRenderer.renderImage opts ⟨url, some alt, caption, some "center", size⟩ := by
  have hfloat : HTMLRenderer.renderImage opts ⟨url, some alt, caption, some al, size⟩
      = Except.ok
          (HTMLRenderer.imageFragment opts ⟨url, some alt, caption, some al, size⟩
            ++ "\n      ") := by
    rcases hal with h | h <;> subst h <;> rfl
  have hcenter : HTMLRenderer.renderImage opts ⟨url, some alt, caption, some "center", size⟩
      = Except.ok ("\n      <div class=\"content-block\">"
          ++ HTMLRenderer.imageFragment opts ⟨url, some alt, caption, some "center", size⟩
          ++ "\n      </div>\n    ") := rfl
  have hnone : HTMLRenderer.renderImage opts ⟨url, some alt, caption, none, size⟩
      = Except.ok ("\n      <div class=\"content-block\">"
          ++ HTMLRenderer.imageFragment opts ⟨url, some alt, caption, none, size⟩
          ++ "\n      </div>\n    ") := rfl
  refine ⟨hfloat, hcenter, hnone, ?_⟩
  intro heq
  rw [hfloat, hcenter] at heq
  have hstr := Except.ok.inj heq
  have hL : (HTMLRenderer.imageFragment opts ⟨url, some alt, caption, some al, size⟩
      ++ "\n      ").data[7]? = some ' ' := by
    apply strCharAt
    simp only [HTMLRenderer.imageFragment]
    repeat apply strCharAt
    rfl
  have hR : (("\n      <div class=\"content-block\">" : String)
      ++ HTMLRenderer.imageFragment opts ⟨url, some alt, caption, some "center", size⟩
      ++ "\n      </div>\n    ").data[7]? = some '<' := by
    repeat apply strCharAt
    rfl
  rw [congrArg (fun s => s.data[7]?) hstr, hR] at hL
  simp at hL

/-- Witness for C2: at a concrete float-left image the bare and wrapped
renders differ. -/
theorem renderImage_float_bare_center_wrapped_witness :
    HTMLRenderer.renderImage (HTMLRenderer.resolveOptions ⟨none, none, none, none, none, none⟩)
        ⟨"a.png", some "pic", none, some "float-left", some "medium"⟩
      ≠ HTMLRenderer.renderImage (HTMLRenderer.resolveOptions ⟨none, none, none, none, none, none⟩)
        ⟨"a.png", some "pic", none, some "center", some "medium"⟩ :=
  (renderImage_float_bare_center_wrapped
    (HTMLRenderer.resolveOptions ⟨none, none, none, none, none, none⟩)
    "a.png" "pic" none (some "medium") "float-left" (Or.inl rfl)).2.2.2

/-! ## Soundness of the validator on §3-well-formed data -/

lemma nonEmptyStr_props {v : JSVal} (h : Spec.nonEmptyStr v = true) :
    v.truthy = true ∧ v.isStrVal = true := by
  cases v <;> simp_all [Spec.nonEmptyStr, JSVal.truthy, JSVal.isStrVal]

lemma strLen1_props {hi : Nat} {v : JSVal} (h : Spec.strLenBetween 1 hi v = true) :
    v.truthy = true ∧ v.isStrVal = true ∧ ¬(v.asStr.length > hi) := by
  cases v <;> simp_all [Spec.strLenBetween, JSVal.truthy, JSVal.isStrVal, JSVal.asStr]
  omega

lemma posInt_props {v : JSVal} (h : Spec.isPosInt v = true) :
    v.truthy = true ∧ v.isNumVal = true ∧ ¬(v.asNum < 1) := by
  cases v <;> simp only [Spec.isPosInt] at h <;> try exact Bool.noConfusion h
  case num n =>
    rw [Bool.and_eq_true, beq_iff_eq, decide_eq_true_eq] at h
    obtain ⟨hden, hle⟩ := h
    refine ⟨?_, rfl, ?_⟩
    · simp only [JSVal.truthy, bne_iff_ne, ne_eq]
      intro h0
      rw [h0] at hle
      norm_num at hle
    · simp only [JSVal.asNum]
      linarith

lemma intBetween16_props {v : JSVal} (h : Spec.intBetween 1 6 v = true) :
    v.truthy = true ∧ v.isNumVal = true ∧ ¬(v.asNum < 1) ∧ ¬(v.asNum > 6) := by
  cases v <;> simp only [Spec.intBetween] at h <;> try exact Bool.noConfusion h
  case num n =>
    rw [Bool.and_eq_true, Bool.and_eq_true, beq_iff_eq, decide_eq_true_eq,
      decide_eq_true_eq] at h
    obtain ⟨⟨hden, hlo⟩, hhi⟩ := h
    have hlo1 : (1 : Rat) ≤ n := by exact_mod_cast hlo
    have hhi6 : n ≤ (6 : Rat) := by exact_mod_cast hhi
    refine ⟨?_, rfl, ?_, ?_⟩
    · simp only [JSVal.truthy, bne_iff_ne, ne_eq]
      intro h0
      rw [h0] at hlo1
      norm_num at hlo1
    · simp only [JSVal.asNum]
      linarith
    · simp only [JSVal.asNum]
      linarith

lemma optionalStr_props {v : JSVal} (h : Spec.optionalStr v = true) :
    (!v.isUndefined && !v.isStrVal) = false := by
  cases v <;> simp_all [Spec.optionalStr, JSVal.isUndefined, JSVal.isStrVal]

lemma isStrEq_eq {v : JSVal} {s : String} (h : v.isStrEq s = true) : v = .str s := by
  cases v <;> simp_all [JSVal.isStrEq]

lemma isUndefinedined_eq {v : JSVal} (h : v.isUndefined = true) : v = .undefined := by
  cases v <;> simp_all [JSVal.isUndefined]

lemma validateParagraphBlock_ok {d : JSVal} (p : String)
    (h : Spec.nonEmptyStr (d.getField "text") = true) :
    ContentValidator.validateParagraphBlock d p = [] := by
  obtain ⟨h1, h2⟩ := nonEmptyStr_props h
  simp [ContentValidator.validateParagraphBlock, h1, h2]

lemma validateHeaderBlock_ok {d : JSVal} (p : String)
    (ht : Spec.nonEmptyStr (d.getField "text") = true)
    (hl : Spec.intBetween 1 6 (d.getField "level") = true) :
    ContentValidator.validateHeaderBlock d p = [] := by
  obtain ⟨t1, t2⟩ := nonEmptyStr_props ht
  obtain ⟨l1, l2, l3, l4⟩ := intBetween16_props hl
  simp [ContentValidator.validateHeaderBlock, t1, t2, l1, l2, l3, l4]

lemma validateListBlock_ok {d : JSVal} (p : String)
    (hs : ((d.getField "style").isStrEq "ordered"
      || (d.getField "style").isStrEq "unordered") = true)
    (hi : (match d.getField "items" with
      | .arr xs => !xs.isEmpty && xs.all JSVal.isStrVal
      | _ => false) = true) :
    ContentValidator.validateListBlock d p = [] := by
  have hcond : (!(d.getField "style").truthy ||
      (!(d.getField "style").isStrEq "ordered" && !(d.getField "style").isStrEq "unordered"))
      = false := by
    rcases (Bool.or_eq_true _ _).mp hs with h | h <;> rw [isStrEq_eq h] <;> decide
  rcases hitems : d.getField "items" with _ | _ | _ | _ | _ | xs | _ <;>
    rw [hitems] at hi <;> try exact Bool.noConfusion hi
  rw [Bool.and_eq_true] at hi
  obtain ⟨hne, hall⟩ := hi
  have hlen : (xs.length == 0) = false := by
    cases xs
    · exact Bool.noConfusion hne
    · rfl
  have hflat : ((xs.enum.map
      (fun q => ContentValidator.listItemErrors p q.1 q.2)).flatten) = [] := by
    apply flatten_enum_nil
    intro x hx i
    have hstr := List.all_eq_true.mp hall x hx
    simp [ContentValidator.listItemErrors, hstr]
  simp [ContentValidator.validateListBlock, hcond, hitems, JSVal.isArrVal, JSVal.asArr,
    hlen, hflat]

lemma validateQuoteBlock_ok {d : JSVal} (p : String)
    (ht : Spec.nonEmptyStr (d.getField "text") = true)
    (hc : Spec.optionalStr (d.getField "caption") = true) :
    ContentValidator.validateQuoteBlock d p = [] := by
  obtain ⟨t1, t2⟩ := nonEmptyStr_props ht
  have hcap := optionalStr_props hc
  simp [ContentValidator.validateQuoteBlock, t1, t2, hcap]

lemma validateMathBlock_ok {d : JSVal} (p : String)
    (hl : Spec.nonEmptyStr (d.getField "latex") = true)
    (hd : (d.getField "display").isBoolVal = true) :
    ContentValidator.validateMathBlock d p = [] := by
  obtain ⟨t1, t2⟩ := nonEmptyStr_props hl
  have hNotU : (d.getField "display").isUndefined = false := by
    rcases h : d.getField "display" <;> rw [h] at hd <;>
      first | exact Bool.noConfusion hd | rfl
  simp [ContentValidator.validateMathBlock, t1, t2, hd, hNotU]

lemma validateImageBlock_ok (urlOk : String → Bool) {d : JSVal} (p : String)
    (hu : (match d.getField "url" with
      | .str s => s.length != 0 && (urlOk s || jsStartsWith s "/" || jsStartsWith s "data:")
      | _ => false) = true)
    (ha : Spec.optionalStr (d.getField "alt") = true)
    (hc : Spec.optionalStr (d.getField "caption") = true)
    (hal : ((d.getField "alignment").isUndefined
      || Spec.alignmentOk (d.getField "alignment")) = true)
    (hsz : ((d.getField "size").isUndefined || Spec.sizeOk (d.getField "size")) = true) :
    ContentValidator.validateImageBlock urlOk d p = [] := by
  have halt := optionalStr_props ha
  have hcap := optionalStr_props hc
  have halign : ((d.getField "alignment").truthy &&
      !ContentValidator.isValidImageAlignment (d.getField "alignment")) = false := by
    rcases (Bool.or_eq_true _ _).mp hal with h | h
    · rw [isUndefinedined_eq h]
      rfl
    · have h2 : ContentValidator.isValidImageAlignment (d.getField "alignment") = true := h
      simp [h2]
  have hsize : ((d.getField "size").truthy &&
      !ContentValidator.isValidImageSize (d.getField "size")) = false := by
    rcases (Bool.or_eq_true _ _).mp hsz with h | h
    · rw [isUndefinedined_eq h]
      rfl
    · have h2 : ContentValidator.isValidImageSize (d.getField "size") = true := h
      simp [h2]
  rcases hurl : d.getField "url" with _ | _ | _ | _ | s | _ | _ <;>
    rw [hurl] at hu <;> try exact Bool.noConfusion hu
  rw [Bool.and_eq_true] at hu
  obtain ⟨hlen, hok⟩ := hu
  have hUrlC : (if !(d.getField "url").truthy || !(d.getField "url").isStrVal then
        ([⟨p ++ ".data.url", "Image URL must be a non-empty string", "INVALID_VALUE"⟩]
          : List ValidationError)
      else if urlOk (d.getField "url").asStr then []
      else if !jsStartsWith (d.getField "url").asStr "/"
          && !jsStartsWith (d.getField "url").asStr "data:" then
        [⟨p ++ ".data.url", "Image URL must be a valid URL, relative path, or data URI",
          "INVALID_VALUE"⟩]
      else []) = [] := by
    rw [hurl]
    have htr : (JSVal.str s).truthy = true := hlen
    rcases hok1 : urlOk s with _ | _
    · rcases (Bool.or_eq_true _ _).mp hok with h | h
      · rcases (Bool.or_eq_true _ _).mp h with h2 | h2
        · rw [hok1] at h2
          exact Bool.noConfusion h2
        · simp [htr, hok1, h2, JSVal.asStr, JSVal.isStrVal]
      · simp [htr, hok1, h, JSVal.asStr, JSVal.isStrVal]
    · simp [htr, hok1, JSVal.asStr, JSVal.isStrVal]
  have hAltC : (if !(d.getField "alt").isUndefined && !(d.getField "alt").isStrVal then
        ([⟨p ++ ".data.alt", "Image alt text must be a string", "INVALID_TYPE"⟩]
          : List ValidationError)
      else []) = [] := by
    rw [halt]
    rfl
  have hCapC : (if !(d.getField "caption").isUndefined && !(d.getField "caption").isStrVal then
        ([⟨p ++ ".data.caption", "Image caption must be a string", "INVALID_TYPE"⟩]
          : List ValidationError)
      else []) = [] := by
    rw [hcap]
    rfl
  have hAlignC : (if (d.getField "alignment").truthy &&
        !ContentValidator.isValidImageAlignment (d.getField "alignment") then
        ([⟨p ++ ".data.alignment",
           "Invalid alignment. Must be \"center\", \"float-left\", or \"float-right\"",
           "INVALID_VALUE"⟩] : List ValidationError)
      else []) = [] := by
    rw [halign]
    rfl
  have hSizeC : (if (d.getField "size").truthy &&
        !ContentValidator.isValidImageSize (d.getField "size") then
        ([⟨p ++ ".data.size",
           "Invalid size. Must be \"small\", \"medium\", \"large\", or \"full\"",
           "INVALID_VALUE"⟩] : List ValidationError)
      else []) = [] := by
    rw [hsize]
    rfl
  simp only [ContentValidator.validateImageBlock, hUrlC, hAltC, hCapC, hAlignC, hSizeC]
  rfl

lemma validateBlock_ok (urlOk : String → Bool) {b : JSVal} (p : String)
    (h : Spec.wfBlock urlOk b = true) :
    ContentValidator.validateBlock urlOk b p = [] := by
  rcases hb : b with _ | _ | _ | _ | _ | _ | fields <;> rw [hb] at h <;>
    simp only [Spec.wfBlock, Spec.isObjVal, Bool.false_and, Bool.and_false] at h <;>
    try exact Bool.noConfusion h
  rw [Bool.true_and, Bool.and_eq_true] at h
  obtain ⟨hdata, hchain⟩ := h
  have hdobj : ((JSVal.obj fields).getField "data").truthy = true ∧
      ((JSVal.obj fields).getField "data").typeofStr = "object" := by
    rcases hd : (JSVal.obj fields).getField "data" <;> rw [hd] at hdata <;>
      first | exact Bool.noConfusion hdata | exact ⟨rfl, rfl⟩
  unfold ContentValidator.validateBlock
  rw [if_neg (by simp [JSVal.truthy, JSVal.typeofStr])]
  split at hchain
  next hp =>
    rw [isStrEq_eq hp, if_neg (by decide), if_neg (by decide),
      if_neg (by simp [hdobj.1, hdobj.2]), if_pos (by decide)]
    exact validateParagraphBlock_ok p hchain
  next hp1 =>
  split at hchain
  next hp =>
    rw [isStrEq_eq hp, if_neg (by decide), if_neg (by decide),
      if_neg (by simp [hdobj.1, hdobj.2]), if_neg (by decide), if_pos (by decide)]
    rw [Bool.and_eq_true] at hchain
    exact validateHeaderBlock_ok p hchain.1 hchain.2
  next hp2 =>
  split at hchain
  next hp =>
    rw [isStrEq_eq hp, if_neg (by decide), if_neg (by decide),
      if_neg (by simp [hdobj.1, hdobj.2]), if_neg (by decide), if_neg (by decide),
      if_pos (by decide)]
    rw [Bool.and_eq_true] at hchain
    exact validateListBlock_ok p hchain.1 hchain.2
  next hp3 =>
  split at hchain
  next hp =>
    rw [isStrEq_eq hp, if_neg (by decide), if_neg (by decide),
      if_neg (by simp [hdobj.1, hdobj.2]), if_neg (by decide), if_neg (by decide),
      if_neg (by decide), if_pos (by decide)]
    rw [Bool.and_eq_true] at hchain
    exact validateQuoteBlock_ok p hchain.1 hchain.2
  next hp4 =>
  split at hchain
  next hp =>
    rw [isStrEq_eq hp, if_neg (by decide), if_neg (by decide),
      if_neg (by simp [hdobj.1, hdobj.2]), if_neg (by decide), if_neg (by decide),
      if_neg (by decide), if_neg (by decide), if_pos (by decide)]
    rw [Bool.and_eq_true] at hchain
    exact validateMathBlock_ok p hchain.1 hchain.2
  next hp5 =>
  split at hchain
  next hp =>
    rw [isStrEq_eq hp, if_neg (by decide), if_neg (by decide),
      if_neg (by simp [hdobj.1, hdobj.2]), if_neg (by decide), if_neg (by decide),
      if_neg (by decide), if_neg (by decide), if_neg (by decide), if_pos (by decide)]
    rw [Bool.and_eq_true, Bool.and_eq_true, Bool.and_eq_true, Bool.and_eq_true] at hchain
    obtain ⟨⟨⟨⟨h1, h2⟩, h3⟩, h4⟩, h5⟩ := hchain
    exact validateImageBlock_ok urlOk p h1 h2 h3 h4 h5
  next hp6 =>
    exact Bool.noConfusion hchain

lemma validateMetadata_ok {m : JSVal} (h : Spec.wfMetadata m = true) :
    ContentValidator.validateMetadata m = [] := by
  simp only [Spec.wfMetadata] at h
  rw [Bool.and_eq_true, Bool.and_eq_true, Bool.and_eq_true, Bool.and_eq_true,
    Bool.and_eq_true, Bool.and_eq_true] at h
  obtain ⟨⟨⟨⟨⟨⟨hobj, hid⟩, htitle⟩, hct⟩, hcat⟩, hdiff⟩, htags⟩ := h
  obtain ⟨i1, i2, i3⟩ := posInt_props hid
  obtain ⟨t1, t2, t3⟩ := strLen1_props htitle
  have hctt : (m.getField "contentType").truthy = true ∧
      ContentValidator.isValidContentType (m.getField "contentType") = true := by
    rcases (Bool.or_eq_true _ _).mp hct with h2 | h2 <;> rw [isStrEq_eq h2] <;>
      exact ⟨rfl, rfl⟩
  have hcat2 : ContentValidator.isValidCategory (m.getField "category") = true := hcat
  have hdiff2 : ContentValidator.isValidDifficulty (m.getField "difficulty") = true := hdiff
  have htagsC : (if (m.getField "tags").isUndefined then ([] : List ValidationError)
      else if !(m.getField "tags").isArrVal then
        [⟨"metadata" ++ ".tags", "Tags must be an array", "INVALID_TYPE"⟩]
      else
        (if (m.getField "tags").asArr.length > 10 then
          [⟨"metadata" ++ ".tags", "Maximum 10 tags allowed", "ARRAY_TOO_LONG"⟩]
        else []) ++
        ((m.getField "tags").asArr.enum.map
          (fun q => ContentValidator.tagErrors "metadata" q.1 q.2)).flatten) = [] := by
    rcases ht : m.getField "tags" with _ | _ | _ | _ | _ | ts | _ <;> rw [ht] at htags <;>
      try exact Bool.noConfusion htags
    simp only [Spec.tagsOk] at htags
    rw [Bool.and_eq_true, decide_eq_true_eq] at htags
    obtain ⟨hlen, hall⟩ := htags
    have hflat : ∀ tag ∈ ts, ∀ i, ContentValidator.tagErrors "metadata" i tag = [] := by
      intro tag htag i
      have hsl := List.all_eq_true.mp hall tag htag
      rcases tag with _ | _ | _ | _ | s | _ | _ <;> try exact Bool.noConfusion hsl
      obtain ⟨s1, s2, s3⟩ := strLen1_props hsl
      have hne0 : ¬(s.length = 0) := by simpa [JSVal.truthy] using s1
      have hle50 : ¬(50 < s.length) := by simpa [JSVal.asStr] using s3
      simp [ContentValidator.tagErrors, JSVal.isStrVal, JSVal.asStr, hne0, hle50]
    simp [JSVal.isUndefined, JSVal.isArrVal, JSVal.asArr, flatten_enum_nil _ _ hflat,
      Nat.not_lt.mpr hlen]
  simp only [ContentValidator.validateMetadata]
  rw [if_neg (by simp [i1, i2, i3]), if_neg (by simp [t1, t2]),
    if_neg (by simpa using t3), if_neg (by simp [hctt.1]), if_neg (by simp [hctt.2]),
    if_neg (by simp [hcat2]), if_neg (by simp [hdiff2]), htagsC]
  rfl

lemma validateBlocks_ok (urlOk : String → Bool) {v : JSVal} (p : String)
    (h : (match v with
      | .arr bs => !bs.isEmpty && bs.all (Spec.wfBlock urlOk)
      | _ => false) = true) :
    ContentValidator.validateBlocks urlOk v p = [] := by
  rcases hv : v with _ | _ | _ | _ | _ | bs | _ <;> rw [hv] at h <;>
    try exact Bool.noConfusion h
  rw [Bool.and_eq_true] at h
  obtain ⟨hne, hall⟩ := h
  have hlen : ¬((bs.length == 0) = true) := by
    cases bs
    · exact Bool.noConfusion hne
    · simp
  have hflat : ∀ b ∈ bs, ∀ i : Nat,
      ContentValidator.validateBlock urlOk b (p ++ "[" ++ toString i ++ "]") = [] := by
    intro b hbmem _
    exact validateBlock_ok urlOk _ (List.all_eq_true.mp hall b hbmem)
  unfold ContentValidator.validateBlocks
  rw [if_neg (by simp [JSVal.isArrVal]), if_neg (by simpa [JSVal.asArr] using hlen)]
  simpa [JSVal.asArr] using flatten_enum_nil _ _ hflat

lemma wfMetadata_truthy {m : JSVal} (h : Spec.wfMetadata m = true) : m.truthy = true := by
  rcases m <;> simp_all [Spec.wfMetadata, Spec.isObjVal, JSVal.truthy]

lemma validateSolution_ok (urlOk : String → Bool) {s : JSVal} (p : String)
    (h : Spec.wfSolution urlOk true s = true) :
    ContentValidator.validateSolution urlOk s p = [] := by
  rcases hs : s with _ | _ | _ | _ | _ | _ | fields <;> rw [hs] at h <;>
    simp only [Spec.wfSolution, Spec.isObjVal, Bool.false_and, Bool.true_and] at h <;>
    try exact Bool.noConfusion h
  rw [Bool.and_eq_true] at h
  obtain ⟨htitle, hblocks⟩ := h
  obtain ⟨t1, t2, t3⟩ := strLen1_props htitle
  have hbmatch : (match (JSVal.obj fields).getField "blocks" with
      | .arr bs => !bs.isEmpty && bs.all (Spec.wfBlock urlOk)
      | _ => false) = true := by
    rcases hb : (JSVal.obj fields).getField "blocks" with _ | _ | _ | _ | _ | bs | _ <;>
      rw [hb] at hblocks <;> try exact Bool.noConfusion hblocks
    simpa using hblocks
  have hbtruthy : ((JSVal.obj fields).getField "blocks").truthy = true := by
    rcases hb : (JSVal.obj fields).getField "blocks" with _ | _ | _ | _ | _ | bs | _ <;>
      rw [hb] at hblocks <;> first | exact Bool.noConfusion hblocks | rfl
  unfold ContentValidator.validateSolution
  rw [if_neg (by simp [JSVal.truthy, JSVal.typeofStr]), if_neg (by simp [t1, t2]),
    if_neg (by simpa using t3), if_neg (by simp [hbtruthy]),
    validateBlocks_ok urlOk _ hbmatch]
  rfl

/-- C1 (amended): any content built from the §3 variant table with all
constraints satisfied — and, in addition, every solution's `blocks` array
non-empty — validates with `valid = true` and no errors, for every model of
the platform URL parser. -/
theorem validate_accepts_wellformed_content (urlOk : String → Bool) (st : ValidatorState)
    {c : JSVal} (h : Spec.wfContent urlOk true c = true) :
    (ContentValidator.validate urlOk st c).1 = ⟨true, []⟩ := by
  rcases hc : c with _ | _ | _ | _ | _ | _ | fields <;> rw [hc] at h <;>
    simp only [Spec.wfContent, Spec.isObjVal, Bool.false_and, Bool.true_and] at h <;>
    try exact Bool.noConfusion h
  rw [Bool.and_eq_true, Bool.and_eq_true] at h
  obtain ⟨⟨hmeta, hstmt⟩, hsols⟩ := h
  have hmtruthy := wfMetadata_truthy hmeta
  have hstruthy : ((JSVal.obj fields).getField "statement").truthy = true := by
    rcases hb : (JSVal.obj fields).getField "statement" with _ | _ | _ | _ | _ | bs | _ <;>
      rw [hb] at hstmt <;> first | exact Bool.noConfusion hstmt | rfl
  have hsolsC : (if ((JSVal.obj fields).getField "solutions").isUndefined
      then ([] : List ValidationError)
      else ContentValidator.validateSolutions urlOk
        ((JSVal.obj fields).getField "solutions")) = [] := by
    rcases hso : (JSVal.obj fields).getField "solutions"
        with _ | _ | _ | _ | _ | ss | _ <;> rw [hso] at hsols <;>
      try exact Bool.noConfusion hsols
    · rfl
    · have hflat : ∀ x ∈ ss, ∀ i : Nat, ContentValidator.validateSolution urlOk x
          ("solutions[" ++ toString i ++ "]") = [] := by
        intro x hx _
        exact validateSolution_ok urlOk _ (List.all_eq_true.mp hsols x hx)
      simp [JSVal.isUndefined, ContentValidator.validateSolutions, JSVal.isArrVal,
        JSVal.asArr, flatten_enum_nil _ _ hflat]
  simp only [ContentValidator.validate]
  rw [if_neg (by simp [JSVal.truthy, JSVal.typeofStr]), if_neg (by simp [hmtruthy]),
    if_neg (by simp [hstruthy]), validateMetadata_ok hmeta,
    validateBlocks_ok urlOk _ hstmt, hsolsC]
  rfl

/-- C1 counterexample: the §3 table allows a solution whose `blocks` array is
empty (`ContentBlock[] (≥0)`), and `emptyBlocksSolutionContent` satisfies
every §3 constraint; yet `validate` delegates solution blocks to the
block-array check, which rejects empty arrays, so the round trip fails: the
result is invalid with an `ARRAY_EMPTY` error at `solutions[0].blocks`. -/
theorem validate_rejects_empty_solution_blocks :
    Spec.wfContent (fun _ => false) false emptyBlocksSolutionContent = true ∧
    (ContentValidator.validate (fun _ => false) ⟨[]⟩ emptyBlocksSolutionContent).1 =
      ⟨false, [⟨"solutions[0].blocks", "At least one block is required", "ARRAY_EMPTY"⟩]⟩ :=
  ⟨by decide, by decide⟩

/-- Witness for C1 (amended) at a concrete content containing all six block
variants and a non-empty solution. -/
theorem validate_accepts_wellformed_content_witness :
    Spec.wfContent (fun _ => false) true allVariantsContent = true ∧
    (ContentValidator.validate (fun _ => false) ⟨[]⟩ allVariantsContent).1 = ⟨true, []⟩ :=
  ⟨by decide, validate_accepts_wellformed_content (fun _ => false) ⟨[]⟩ (by decide)⟩
